import Mathlib

/-!
Formal model of the doubt-resolution engine of the EtaOTT backend.

The definitions below are a shallow embedding of the decision logic in
src/services/ai.service.js and src/routes/doubt.routes.js:

* `checkFormattingQuality` and `calculateConfidence` embed the pure confidence
  scorer (ai.service.js lines 17-130); JS numbers are modelled as exact
  rationals, JS `Math.round` as `jsRound` (floor of x + 1/2, which is how JS
  rounds halves toward positive infinity).
* `searchKnowledgeGraphSelect` embeds the candidate filtering and ordering done
  by the Cypher query inside `searchKnowledgeGraph` (WHERE score >= 0.85,
  ORDER BY isSameCourse DESC, score DESC LIMIT 1) over the list of candidates
  yielded by the vector index.
* `saveToKnowledgeGraph` embeds the writeback decision of the service function
  of the same name; the external embedding provider and the graph write are
  oracle inputs.  Result `none` models the JS `null` returns that happen before
  anything is written, `some true` a merged record, `some false` a caught write
  failure.
* `askGroqInner` / `askGroq` embed the control flow of `askGroq`: API-key
  check, conversational short-circuits, provider-error mapping, confidence
  computation, and the outer try/catch that replaces every thrown message with
  the generic string.  The external model is an oracle (`ProviderOutcome`);
  prompt construction is elided because no returned value depends on it, and
  the regex measurements of the returned text are carried as
  `FormattingFeatures`.
* `askRouteCacheMiss` embeds the cache-miss tail of the POST /ask handler
  (doubt.routes.js lines 213-341): video-suggestion guards, the >= 70
  writeback trigger with its `isSaved` flag, doubt creation with the >= 80
  resolved/pending threshold, and the catch block that maps error messages to
  HTTP responses.  `escalateDoubt` and `answerDoubt` embed the POST
  /:id/escalate and POST /:id/answer handlers, and `transcriptWindowStart`,
  `transcriptWindowEnd`, `transcriptSegment` the video grounding window of the
  same route.

All functions are pure and computable, so concrete runs are settled by
`decide` / `rfl`.
-/

set_option maxRecDepth 10000

/-- JS `Math.round`: halves round toward positive infinity. -/
def jsRound (x : ℚ) : ℤ := Int.floor (x + 1/2)

/-- ASCII lower-casing of one character; agrees with the JS `toLowerCase`
on the ASCII inputs the detection regexes care about. -/
def lowerChar (c : Char) : Char :=
  if 65 ≤ c.toNat && c.toNat ≤ 90 then Char.ofNat (c.toNat + 32) else c

/-- JS `toLowerCase`, character by character. -/
def toLowerAscii (s : String) : String := String.mk (s.data.map lowerChar)

/-- The whitespace class JS `trim` removes (on the inputs that occur here). -/
def isSpaceChar (c : Char) : Bool :=
  c == ' ' || c == '\t' || c == '\n' || c == '\r'

/-- JS `trim`: strip leading and trailing whitespace. -/
def trimString (s : String) : String :=
  String.mk (((s.data.dropWhile isSpaceChar).reverse.dropWhile isSpaceChar).reverse)

/-- Does `s` start with `p`?  (A start-anchored regex alternative test.) -/
def startsWithString (s p : String) : Bool := p.data.isPrefixOf s.data

/-- The regex measurements `checkFormattingQuality` takes on the response text
(ai.service.js lines 20-30).  The regex engine is abstracted: each field is
the outcome of the corresponding test on the actual string. -/
structure FormattingFeatures where
  hasMainTitle : Bool
  hasSubtitles : Bool
  hasBulletPoints : Bool
  hasNumberedLists : Bool
  hasBoldText : Bool
  hasCodeBlocks : Bool
  hasInlineCode : Bool
  hasFormulas : Bool
  titleCount : ℕ
  subtitleCount : ℕ
deriving DecidableEq, Repr

/-- Formatting sub-score (ai.service.js lines 32-42). -/
def checkFormattingQuality (f : FormattingFeatures) : ℕ :=
  (if f.hasMainTitle then 15 else 0) +
  (if f.hasSubtitles then 15 else 0) +
  (if f.hasBulletPoints then 10 else 0) +
  (if f.hasNumberedLists then 10 else 0) +
  (if f.hasBoldText then 10 else 0) +
  (if f.hasCodeBlocks then 5 else 0) +
  (if f.hasInlineCode then 5 else 0) +
  (if f.hasFormulas then 5 else 0) +
  (if 1 ≤ f.titleCount then 5 else 0) +
  (if 2 ≤ f.subtitleCount then 10 else 0)

/-- Inputs of `calculateConfidence` (ai.service.js lines 62-73).
`contentType` and `isVisionMode` are destructured by the source but never
used in the body; they are kept for fidelity. -/
structure ConfidenceParams where
  aiConfidence : ℚ
  hasContext : Bool
  hasSelectedText : Bool
  hasVisualContext : Bool
  isVisionMode : Bool
  responseLength : ℕ
  hasFormattingScore : ℚ
  contentType : String
  isVerifiedSource : Bool
deriving DecidableEq, Repr

/-- The confidence scorer (ai.service.js lines 62-130), returning the
clamped `finalScore`.  It is a pure total function of its parameter record,
hence deterministic and side-effect-free by construction. -/
def calculateConfidence (p : ConfidenceParams) : ℤ :=
  let aiWeight : ℚ := if p.isVerifiedSource then 50/100 else 35/100
  let aiScore : ℚ := min 100 (max 0 p.aiConfidence) * aiWeight
  let contextScore : ℚ :=
    min 25 ((if p.hasSelectedText then 12 else 0) +
            ((if p.hasContext then 8 else 0) +
             (if p.hasVisualContext then 5 else 0)))
  let responseScore : ℚ :=
    if 400 ≤ p.responseLength then 20
    else if 200 ≤ p.responseLength then 15
    else if 100 ≤ p.responseLength then 10
    else 5
  let formattingScore : ℚ := p.hasFormattingScore / 100 * 20
  let sourceBonus : ℚ := if p.isVerifiedSource then 10 else 0
  let finalScore : ℤ :=
    jsRound (aiScore + contextScore + responseScore + formattingScore + sourceBonus)
  min 100 (max 0 finalScore)

/-- A candidate row yielded by the vector index inside `searchKnowledgeGraph`:
its cosine similarity, whether it is linked to the course of the request, and
the stored answer text. -/
structure Candidate where
  score : ℚ
  isSameCourse : Bool
  answer : String
deriving DecidableEq, Repr

/-- The single similarity floor of the Cypher query
(`WHERE score >= 0.85`, ai.service.js line 171). -/
def searchFloor : ℚ := 85/100

/-- Does a candidate survive the similarity floor? -/
def passesFloor (c : Candidate) : Bool := decide (searchFloor ≤ c.score)

/-- Does candidate `a` sort strictly before candidate `b` under
`ORDER BY isSameCourse DESC, score DESC` (ai.service.js line 175)? -/
def rankBefore (a b : Candidate) : Bool :=
  (a.isSameCourse && !b.isSameCourse) ||
  ((a.isSameCourse == b.isSameCourse) && decide (b.score < a.score))

/-- Running best of the ordered scan; earlier rows win ties. -/
def pickBest (acc : Option Candidate) (c : Candidate) : Option Candidate :=
  match acc with
  | none => some c
  | some a => if rankBefore c a then some c else some a

/-- The selection performed by the Cypher query of `searchKnowledgeGraph`
(ai.service.js lines 168-176) over the candidates yielded by the vector
index: drop rows below the floor, order by course affinity then similarity,
return at most one row. -/
def searchKnowledgeGraphSelect (cands : List Candidate) : Option Candidate :=
  (cands.filter passesFloor).foldl pickBest none

/-- Writeback decision of `saveToKnowledgeGraph` (ai.service.js lines
249-306).  The embedding provider and the graph write are oracles:
`none` models the JS `null` returns taken before anything is written
(confidence below 80, or no embedding), `some true` a merged record, and
`some false` the caught failure of the graph write. -/
def saveToKnowledgeGraph (confidence : ℤ) (embedding : Option (List ℚ))
    (graphWriteOk : Bool) : Option Bool :=
  if confidence < 80 then none
  else
    match embedding with
    | none => none
    | some _ => if graphWriteOk then some true else some false

/-- The writeback step of the POST /ask handler (doubt.routes.js lines
280-296): `saveToKnowledgeGraph` is invoked whenever confidence is at least
70, and `isSaved` (first component) is set to true right after the call
returns — `saveToKnowledgeGraph` catches internally and never throws.  The
second component is the value the service call returned. -/
def askWriteback (confidence : ℤ) (emb : Option (List ℚ)) (writeOk : Bool) :
    Bool × Option Bool :=
  if 70 ≤ confidence then (true, saveToKnowledgeGraph confidence emb writeOk)
  else (false, none)

/-- The record merged by `saveDoubtToGraph` (ai.service.js lines 513-530). -/
structure StoredDoubtNode where
  queryKey : String
  query : String
  context : String
  answer : String
  confidence : ℤ
deriving DecidableEq, Repr

/-- `saveDoubtToGraph` (ai.service.js lines 513-530): merges a Doubt node
keyed by the normalized query/context pair and stores the given confidence. -/
def saveDoubtToGraph (query answer : String) (confidence : ℤ)
    (context : String) : StoredDoubtNode :=
  { queryKey := trimString (toLowerAscii query) ++
      (if context == "" then "" else "|" ++ trimString (toLowerAscii context)),
    query := trimString query,
    context := trimString context,
    answer := answer,
    confidence := confidence }

/-- Assumed speech rate used for the video grounding window
(doubt.routes.js line 111). -/
def wordsPerSec : ℚ := 5/2

/-- Half-width of the grounding window in seconds (doubt.routes.js line 112). -/
def windowSeconds : ℚ := 30

/-- Start word index of the transcript window
(doubt.routes.js line 114). -/
def transcriptWindowStart (totalSeconds : ℕ) : ℕ :=
  (max 0 (Int.floor (((totalSeconds : ℚ) - windowSeconds) * wordsPerSec))).toNat

/-- End word index (exclusive) of the transcript window
(doubt.routes.js line 115). -/
def transcriptWindowEnd (totalSeconds : ℕ) : ℕ :=
  (Int.floor (((totalSeconds : ℚ) + windowSeconds) * wordsPerSec)).toNat

/-- JS `Array.prototype.slice(s, e)` for non-negative bounds: elements from
index `s` up to but excluding `e`, both clamped to the array length. -/
def jsSlice (l : List String) (s e : ℕ) : List String := (l.take e).drop s

/-- The grounding transcript window (doubt.routes.js line 116): the slice of
the whitespace-split transcript between the two computed word indices. -/
def transcriptSegment (words : List String) (totalSeconds : ℕ) : List String :=
  jsSlice words (transcriptWindowStart totalSeconds) (transcriptWindowEnd totalSeconds)

/-- The alternatives of the anchored greeting regex of `askGroq`
(ai.service.js line 334), tested case-insensitively against the trimmed
query. -/
def greetingStarters : List String :=
  ["hi", "hello", "hey", "namaste", "hola", "good morning", "good afternoon",
   "good evening", "yo", "who are you", "what is your name"]

/-- Greeting detection (ai.service.js line 334): the regex is anchored at the
start only, so it is a prefix test on the lowercased trimmed query. -/
def isGreeting (query : String) : Bool :=
  greetingStarters.any (fun p => startsWithString (trimString (toLowerAscii query)) p)

/-- The alternatives of the fully anchored vague-explain regex of `askGroq`
(ai.service.js line 335). -/
def vagueExplainPhrases : List String :=
  ["explain", "analyze", "samajhao", "samjhao", "batao", "kya hai",
   "what is this", "explain this", "analyze this", "tell me about it",
   "samajh nhi aa rha", "samajh nahi aa raha"]

/-- Vague-explain detection (ai.service.js line 335): the regex is anchored at
both ends, so it is an exact match of the lowercased trimmed query. -/
def isVagueExplain (query : String) : Bool :=
  vagueExplainPhrases.any (fun p => trimString (toLowerAscii query) == p)

/-- `displayContext` of `askGroq` (ai.service.js line 339): a truthy context
shorter than 50 characters is shown, otherwise the placeholder. -/
def displayContextOf (context : String) : String :=
  if !(context == "") && decide (context.length < 50) then context else "is resource"

/-- The canned greeting answer (ai.service.js line 344). -/
def greetingMessage (userName displayContext : String) : String :=
  "[[INTRO]] \nNamaste " ++ userName ++ "! \n\nMain aapka AI Tutor hoon. Aap abhi **" ++
  displayContext ++ "** dekh rahe hain. \n\nAap is resource mein se koi bhi part select kar sakte hain (using the pencil icon) ya mujhse directly doubts pooch sakte hain. \n\nMain aapki kaise madad kar sakta hoon? 🚀"

/-- The canned select-an-area answer (ai.service.js line 354). -/
def selectRegionMessage (userName displayContext : String) : String :=
  "[[INTRO]] \nJarur " ++ userName ++ "! \n\nMain aapko **" ++ displayContext ++
  "** ke baare mein explain kar sakta hoon. \n\n### Please Select an Area first 📝 \n\nBeheter explanation ke liye, kripya screen par **pencil icon** par click karein aur us area ko highlight karein jiske baare mein aap pooch rahe hain. \n\nJaise hi aap select karenge, main us specific part ko details ke saath samjha dunga!"

/-- Is the request handled by one of the two conversational short-circuits of
`askGroq` (ai.service.js lines 342 and 352)?  The greeting branch needs a
short query; the vague-explain branch fires only without any selection. -/
def isConversationalShortCircuit (query selectedText : String)
    (hasVisualContext : Bool) : Bool :=
  (isGreeting query && decide (query.length < 20)) ||
  (isVagueExplain query && !(!(selectedText == "") || hasVisualContext))

/-- Outcome of the external generation call, an oracle input: a successful
completion carries the returned text together with the regex measurements
taken on it; failures carry the HTTP status axios observed, or none at all
for network-level errors. -/
inductive ProviderOutcome where
  | ok (content : String) (fmt : FormattingFeatures)
  | httpError (status : ℕ)
  | networkError
deriving DecidableEq, Repr

/-- Value produced by a successful `askGroq` call
(ai.service.js lines 343-348, 353-358, 501-506). -/
structure AskResult where
  explanation : String
  confidence : ℤ
  source : String
  isConversational : Bool
deriving DecidableEq, Repr

/-- `userKey || GROQ_API_KEY` (ai.service.js line 312). -/
def activeKey (userKey envKey : Option String) : Option String :=
  match userKey with
  | some v => some v
  | none => envKey

/-- Body of the try block of `askGroq` (ai.service.js lines 309-506): the
thrown error message is the `Except.error` payload.  Upstream failures other
than 413/429/401 are rethrown with their own message (modelled by the two
UPSTREAM placeholders, which is faithful because the outer catch replaces
every message anyway). -/
def askGroqInner (query context : String) (hasVisualContext : Bool)
    (contentUrl : Option String) (contentType language userName selectedText : String)
    (userKey envKey : Option String) (provider : ProviderOutcome) :
    Except String AskResult :=
  match activeKey userKey envKey with
  | none => Except.error "NO_API_KEY"
  | some _ =>
    let isVisionMode := hasVisualContext && contentUrl.isSome && contentType == "image"
    let hasSelection := !(selectedText == "") || hasVisualContext
    if isGreeting query && decide (query.length < 20) then
      Except.ok { explanation := greetingMessage userName (displayContextOf context),
                  confidence := 100, source := "system_response", isConversational := true }
    else if isVagueExplain query && !hasSelection then
      Except.ok { explanation := selectRegionMessage userName (displayContextOf context),
                  confidence := 90, source := "system_response", isConversational := true }
    else
      match provider with
      | ProviderOutcome.httpError status =>
          if status == 413 || status == 429 then Except.error "API_LIMIT_REACHED"
          else if status == 401 then Except.error "INVALID_API_KEY"
          else Except.error "UPSTREAM_HTTP_ERROR"
      | ProviderOutcome.networkError => Except.error "UPSTREAM_NETWORK_ERROR"
      | ProviderOutcome.ok content fmt =>
          let conf := calculateConfidence
            { aiConfidence := 85,
              hasContext := !(context == ""),
              hasSelectedText := !(selectedText == ""),
              hasVisualContext := hasVisualContext,
              isVisionMode := isVisionMode,
              responseLength := content.length,
              hasFormattingScore := (checkFormattingQuality fmt : ℚ),
              contentType := contentType,
              isVerifiedSource := false }
          Except.ok { explanation := content, confidence := conf,
                      source := if isVisionMode then "groq_vision" else "groq_llama",
                      isConversational := false }

/-- `askGroq` with its outer try/catch (ai.service.js lines 507-510): every
thrown message, including the three provider error codes, is replaced by the
generic unavailability message before it reaches the route. -/
def askGroq (query context : String) (hasVisualContext : Bool)
    (contentUrl : Option String) (contentType language userName selectedText : String)
    (userKey envKey : Option String) (provider : ProviderOutcome) :
    Except String AskResult :=
  match askGroqInner query context hasVisualContext contentUrl contentType
      language userName selectedText userKey envKey provider with
  | Except.ok r => Except.ok r
  | Except.error _ => Except.error "AI Tutor is currently unavailable."

/-- The status enum of the Doubt schema (Institution.model.js / doubtSchema). -/
inductive DoubtStatus where
  | pending
  | answered
  | escalated
  | resolved
deriving DecidableEq, Repr

/-- A suggested supplementary video as stored on the doubt
(doubt.routes.js lines 258-266). -/
structure Video where
  id : String
  url : String
  title : String
  thumbnail : String
deriving DecidableEq, Repr

/-- The fields of the persisted Doubt document that the routes read or
write (Institution.model.js doubtSchema); timestamps are modelled as
natural numbers. -/
structure DoubtRecord where
  query : String
  selectedText : String
  context : String
  aiResponse : String
  confidence : ℤ
  escalated : Bool
  facultyAnswer : Option String
  answeredBy : Option String
  status : DoubtStatus
  resolvedAt : Option ℕ
  suggestedVideo : Option Video
  isFromCache : Bool
  source : String
deriving DecidableEq, Repr

/-- `Doubt.create` of the cache-miss branch of POST /ask (doubt.routes.js
lines 298-314): status is resolved at confidence 80 and above, pending
below; the schema defaults leave escalation and resolution fields empty. -/
def createDoubtFromGeneration (query selectedText context aiResponse : String)
    (confidence : ℤ) (suggestedVideo : Option Video) : DoubtRecord :=
  { query := query,
    selectedText := selectedText,
    context := context,
    aiResponse := aiResponse,
    confidence := confidence,
    escalated := false,
    facultyAnswer := none,
    answeredBy := none,
    status := if 80 ≤ confidence then DoubtStatus.resolved else DoubtStatus.pending,
    resolvedAt := none,
    suggestedVideo := suggestedVideo,
    isFromCache := false,
    source := "AI_API" }

/-- POST /:id/escalate (doubt.routes.js lines 381-388): unconditionally sets
the escalated flag and the escalated status; there is no guard on the prior
status. -/
def escalateDoubt (d : DoubtRecord) : DoubtRecord :=
  { d with escalated := true, status := DoubtStatus.escalated }

/-- POST /:id/answer (doubt.routes.js lines 427-438): stores the human
answer and answerer, sets status to answered and stamps the resolution
time. -/
def answerDoubt (d : DoubtRecord) (answer facultyId : String) (now : ℕ) :
    DoubtRecord :=
  { d with facultyAnswer := some answer,
           answeredBy := some facultyId,
           status := DoubtStatus.answered,
           resolvedAt := some now }

/-- The writeback of POST /:id/answer (doubt.routes.js lines 441-444): when
the saveToGraph flag is set, the mentor context is the selected text, else
the stored context, and `saveDoubtToGraph` is called with confidence 100. -/
def answerRouteWriteback (d : DoubtRecord) (answer : String)
    (saveToGraph : Bool) : Option StoredDoubtNode :=
  if saveToGraph then
    let mentorContext :=
      if !(d.selectedText == "") then d.selectedText
      else if !(d.context == "") then d.context
      else ""
    some (saveDoubtToGraph d.query answer 100 mentorContext)
  else none

/-- Shape of the HTTP response the /ask handler sends on a thrown error. -/
structure HttpResponse where
  status : ℕ
  success : Bool
  errorCode : Option String
  message : String
deriving DecidableEq, Repr

/-- The catch block of POST /ask (doubt.routes.js lines 328-341): the three
provider codes get a 401 with an errorCode; every other message falls
through to a bare 500 without one. -/
def askRouteOnError (msg : String) : HttpResponse :=
  if msg == "API_LIMIT_REACHED" || msg == "INVALID_API_KEY" || msg == "NO_API_KEY" then
    { status := 401, success := false, errorCode := some msg,
      message := if msg == "NO_API_KEY" then "Please provide your Groq API key"
                 else "Your Groq API key limits reached or key is invalid" }
  else
    { status := 500, success := false, errorCode := none, message := msg }

/-- The response actually produced for every provider failure: the generic
message thrown by the catch-all of askGroq, mapped by the route catch block
to a bare 500 with no errorCode. -/
def genericFailureResponse : HttpResponse :=
  { status := 500, success := false, errorCode := none,
    message := "AI Tutor is currently unavailable." }

/-- The alternatives of the conversational-keyword regex guarding the video
search (doubt.routes.js line 233). -/
def routeConversationalKeywords : List String :=
  ["hi", "hello", "hey", "namaste", "hola", "good morning", "yo",
   "who are you", "thanks", "thank", "ok", "bye"]

/-- The video-search guard (doubt.routes.js lines 233-234): anchored
case-insensitive prefix test on the trimmed query, for short queries. -/
def routeConversationalGuard (query : String) : Bool :=
  routeConversationalKeywords.any
    (fun p => startsWithString (toLowerAscii (trimString query)) p) &&
  decide (query.length < 30)

/-- The data of the JSON body of a successful cache-miss /ask response
(doubt.routes.js lines 316-327), plus `writebackPersisted`, which records
whether the fire-and-forget `saveToKnowledgeGraph` call actually merged a
record into the graph (true exactly when it returned true). -/
structure AskSuccessData where
  doubt : DoubtRecord
  isFromCache : Bool
  isSaved : Bool
  isConversational : Bool
  source : String
  confidence : ℤ
  writebackPersisted : Bool
deriving DecidableEq, Repr

/-- Outcome of the cache-miss tail of POST /ask. -/
inductive RouteOutcome where
  | errorResp (r : HttpResponse)
  | okResp (d : AskSuccessData)
deriving DecidableEq, Repr

/-- The cache-miss tail of POST /ask (doubt.routes.js lines 213-341),
entered when the knowledge-graph lookup scored below 85.  `enhancedContext`
is the grounding context assembled earlier in the handler; `videoFound` is
the outcome of the external video search; `emb` and `writeOk` are the
oracles of the writeback call. -/
def askRouteCacheMiss (query enhancedContext selectedText : String)
    (hasVisualContext : Bool) (contentUrl : Option String)
    (contentType language userName : String) (userKey envKey : Option String)
    (provider : ProviderOutcome) (videoFound : Option Video)
    (emb : Option (List ℚ)) (writeOk : Bool) : RouteOutcome :=
  match askGroq query enhancedContext hasVisualContext contentUrl contentType
      language userName selectedText userKey envKey provider with
  | Except.error msg => RouteOutcome.errorResp (askRouteOnError msg)
  | Except.ok r =>
      let suggestedVideo : Option Video :=
        if r.isConversational then none
        else if routeConversationalGuard query then none
        else videoFound
      let wb := askWriteback r.confidence emb writeOk
      let doubt := createDoubtFromGeneration query selectedText enhancedContext
        r.explanation r.confidence suggestedVideo
      RouteOutcome.okResp
        { doubt := doubt,
          isFromCache := false,
          isSaved := wb.1,
          isConversational := r.isConversational,
          source := "AI_API",
          confidence := r.confidence,
          writebackPersisted := wb.2 == some true }

/-- All-negative formatting measurements: a response with no markdown
structure at all. -/
def fmt0 : FormattingFeatures :=
  { hasMainTitle := false, hasSubtitles := false, hasBulletPoints := false,
    hasNumberedLists := false, hasBoldText := false, hasCodeBlocks := false,
    hasInlineCode := false, hasFormulas := false, titleCount := 0,
    subtitleCount := 0 }

/-- A concrete suggested video used in concrete runs. -/
def demoVideo : Video :=
  { id := "v1", url := "https://example.org/v1", title := "Binary search trees",
    thumbnail := "https://example.org/v1.jpg" }

/-- A concrete doubt record used in concrete runs. -/
def demoDoubt : DoubtRecord :=
  { query := "why does quicksort degrade on sorted input",
    selectedText := "pivot selection paragraph",
    context := "lecture 12 notes",
    aiResponse := "tentative answer",
    confidence := 60,
    escalated := false,
    facultyAnswer := none,
    answeredBy := none,
    status := DoubtStatus.pending,
    resolvedAt := none,
    suggestedVideo := none,
    isFromCache := false,
    source := "AI_API" }

/-- A 400-character unformatted model answer, long enough for the top
response-length bonus. -/
def longAnswer : String := String.mk (List.replicate 400 'a')

/-- Same-course candidate of the course-affinity boundary example:
similarity 0.86, linked to the course of the request. -/
def sameCourseCand : Candidate :=
  { score := 86/100, isSameCourse := true, answer := "same-course cached answer" }

/-- Cross-course candidate of the course-affinity boundary example:
similarity 0.90, from a different course. -/
def otherCourseCand : Candidate :=
  { score := 9/10, isSameCourse := false, answer := "cross-course cached answer" }

/-!
## Theorems
-/

/-- The outer clamp of the scorer keeps any integer inside the band. -/
theorem min_max_clamp_bounds (n : ℤ) :
    0 ≤ min 100 (max 0 n) ∧ min 100 (max 0 n) ≤ 100 :=
  ⟨le_min (by norm_num) (le_max_left 0 n), min_le_left _ _⟩

/-- C7: for every input combination to the confidence scorer — any base model
confidence, any boolean context flags, any response length, any formatting
sub-score, verified or not, including all-zero inputs — the final score lies
in [0, 100].  Determinism and freedom from side effects hold by construction:
`calculateConfidence` is a pure total function of its argument record. -/
theorem calculateConfidence_in_range (p : ConfidenceParams) :
    0 ≤ calculateConfidence p ∧ calculateConfidence p ≤ 100 :=
  min_max_clamp_bounds _

/-- C5: in semantic-memory lookup, when two candidates both clear the
similarity floor, a same-course record beats a higher-similarity cross-course
record, among equal course affinity the higher similarity wins, and exactly
one best match is returned — in either arrival order. -/
theorem searchSelect_course_affinity (a b : Candidate)
    (ha : searchFloor ≤ a.score) (hb : searchFloor ≤ b.score) :
    ((a.isSameCourse = true ∧ b.isSameCourse = false) ∨
      (a.isSameCourse = b.isSameCourse ∧ b.score < a.score)) →
    searchKnowledgeGraphSelect [a, b] = some a ∧
    searchKnowledgeGraphSelect [b, a] = some a := by
  intro hcase
  have hfa : passesFloor a = true := decide_eq_true ha
  have hfb : passesFloor b = true := decide_eq_true hb
  have hab : rankBefore a b = true := by
    rcases hcase with ⟨h1, h2⟩ | ⟨h1, h2⟩
    · simp [rankBefore, h1, h2]
    · simp [rankBefore, h1, h2]
  have hba : rankBefore b a = false := by
    rcases hcase with ⟨h1, h2⟩ | ⟨h1, h2⟩
    · simp [rankBefore, h1, h2]
    · simp [rankBefore, h1, lt_asymm h2]
  constructor
  · simp [searchKnowledgeGraphSelect, List.filter, hfa, hfb, pickBest, hba]
  · simp [searchKnowledgeGraphSelect, List.filter, hfa, hfb, pickBest, hab]

/-- C5 witness: similarity 0.86 on the same course beats similarity 0.90 from
another course, whichever order the index yields them in. -/
theorem searchSelect_course_affinity_witness :
    searchKnowledgeGraphSelect [sameCourseCand, otherCourseCand] = some sameCourseCand ∧
    searchKnowledgeGraphSelect [otherCourseCand, sameCourseCand] = some sameCourseCand :=
  searchSelect_course_affinity sameCourseCand otherCourseCand
    (by norm_num [searchFloor, sameCourseCand])
    (by norm_num [searchFloor, otherCourseCand])
    (Or.inl ⟨rfl, rfl⟩)

/-- C6 counterexample: the lookup has no lax mode — a candidate at the claimed
lax floor 0.75 is rejected outright, so the claim that 0.75 is accepted as an
exact-floor hit in lax mode is false on this code. -/
theorem laxFloor_candidate_rejected :
    passesFloor { score := 75/100, isSameCourse := true, answer := "cached" } = false ∧
    searchKnowledgeGraphSelect
      [{ score := 75/100, isSameCourse := true, answer := "cached" }] = none := by
  have h : passesFloor { score := 75/100, isSameCourse := true, answer := "cached" } = false := by
    simp only [passesFloor, searchFloor, decide_eq_false_iff_not]
    norm_num
  exact ⟨h, by simp [searchKnowledgeGraphSelect, List.filter, h]⟩

/-- C6 (amended): a candidate with similarity exactly at the floor is accepted
and any candidate strictly below it is rejected, where the floor is the single
hard-coded value 0.85; the code has no strictness modes. -/
theorem searchFloor_boundary (c : Candidate) :
    searchFloor = 85/100 ∧
    (passesFloor c = true ↔ searchFloor ≤ c.score) ∧
    searchKnowledgeGraphSelect [c] =
      (if searchFloor ≤ c.score then some c else none) := by
  refine ⟨rfl, by simp [passesFloor], ?_⟩
  by_cases h : searchFloor ≤ c.score
  · simp [searchKnowledgeGraphSelect, List.filter, passesFloor, h, pickBest]
  · simp [searchKnowledgeGraphSelect, List.filter, passesFloor, h]

/-- C3: for a freshly generated answer, no semantic-memory record is created
at confidence 79 or below (the writeback returns before touching the store);
at 80 and above the route triggers the call and the service proceeds to the
graph write whenever an embedding is available; and the human-answer
writeback of the answer endpoint always stores confidence 100. -/
theorem writeback_policy (c : ℤ) (e : List ℚ) (emb : Option (List ℚ))
    (ok : Bool) (d : DoubtRecord) (ans : String) :
    (c ≤ 79 → saveToKnowledgeGraph c emb ok = none) ∧
    (80 ≤ c → (askWriteback c (some e) ok).1 = true) ∧
    (80 ≤ c → saveToKnowledgeGraph c (some e) ok ≠ none) ∧
    (answerRouteWriteback d ans true).map StoredDoubtNode.confidence = some 100 := by
  refine ⟨?_, ?_, ?_, ?_⟩
  · intro h
    simp [saveToKnowledgeGraph, show c < 80 by omega]
  · intro h
    simp [askWriteback, show (70:ℤ) ≤ c by omega]
  · intro h
    simp only [saveToKnowledgeGraph, if_neg (show ¬ c < 80 by omega)]
    cases ok <;> simp
  · simp [answerRouteWriteback, saveDoubtToGraph]

/-- C3 witness: the thresholds at the concrete boundary values 79 and 80, and
a concrete human answer stored at confidence 100. -/
theorem writeback_policy_witness :
    saveToKnowledgeGraph 79 (some [1]) true = none ∧
    (askWriteback 80 (some [1]) true).1 = true ∧
    saveToKnowledgeGraph 80 (some [1]) true ≠ none ∧
    (answerRouteWriteback demoDoubt "verified human answer" true).map
      StoredDoubtNode.confidence = some 100 :=
  ⟨(writeback_policy 79 [1] (some [1]) true demoDoubt "verified human answer").1 (by decide),
   (writeback_policy 80 [1] (some [1]) true demoDoubt "verified human answer").2.1 (by decide),
   (writeback_policy 80 [1] (some [1]) true demoDoubt "verified human answer").2.2.1 (by decide),
   (writeback_policy 80 [1] (some [1]) true demoDoubt "verified human answer").2.2.2⟩

/-- C9: for any fresh generation whose confidence lies in [70, 80), the route
triggers the writeback call and reports isSaved = true (the call cannot
throw, it catches internally), yet the writeback function itself returns
before persisting anything because its own threshold is 80. -/
theorem isSaved_reported_without_persist (c : ℤ) (emb : Option (List ℚ))
    (ok : Bool) (h70 : 70 ≤ c) (h80 : c < 80) :
    (askWriteback c emb ok).1 = true ∧
    (askWriteback c emb ok).2 = none ∧
    saveToKnowledgeGraph c emb ok = none := by
  have hsave : saveToKnowledgeGraph c emb ok = none := by
    simp [saveToKnowledgeGraph, h80]
  exact ⟨by simp [askWriteback, h70], by simp [askWriteback, h70, hsave], hsave⟩

/-- C9 witness: at confidence 75 with an embedding available, isSaved is
reported true while nothing is persisted. -/
theorem isSaved_reported_without_persist_witness :
    (askWriteback 75 (some [1]) true).1 = true ∧
    (askWriteback 75 (some [1]) true).2 = none ∧
    saveToKnowledgeGraph 75 (some [1]) true = none :=
  isSaved_reported_without_persist 75 (some [1]) true (by decide) (by decide)

/-- C4: a doubt created from a fresh generation at confidence 90 is resolved
and at 60 pending; escalating either moves it to escalated; answering an
escalated doubt moves it to answered with a non-null resolution timestamp. -/
theorem doubt_lifecycle (q sel ctx resp ans fid : String) (v : Option Video)
    (d : DoubtRecord) (now : ℕ) (h : d.status = DoubtStatus.escalated) :
    (createDoubtFromGeneration q sel ctx resp 90 v).status = DoubtStatus.resolved ∧
    (createDoubtFromGeneration q sel ctx resp 60 v).status = DoubtStatus.pending ∧
    (escalateDoubt (createDoubtFromGeneration q sel ctx resp 90 v)).status
      = DoubtStatus.escalated ∧
    (escalateDoubt (createDoubtFromGeneration q sel ctx resp 60 v)).status
      = DoubtStatus.escalated ∧
    (answerDoubt d ans fid now).status = DoubtStatus.answered ∧
    (answerDoubt d ans fid now).resolvedAt = some now ∧
    (answerDoubt d ans fid now).resolvedAt ≠ none := by
  refine ⟨?_, ?_, rfl, rfl, rfl, rfl, by simp [answerDoubt]⟩
  · norm_num [createDoubtFromGeneration]
  · norm_num [createDoubtFromGeneration]

/-- C4 witness: the full lifecycle on a concrete doubt — create at 60,
escalate, then answer it at time 42. -/
theorem doubt_lifecycle_witness :
    (createDoubtFromGeneration "q" "sel" "ctx" "resp" 90 none).status
      = DoubtStatus.resolved ∧
    (createDoubtFromGeneration "q" "sel" "ctx" "resp" 60 none).status
      = DoubtStatus.pending ∧
    (escalateDoubt (createDoubtFromGeneration "q" "sel" "ctx" "resp" 90 none)).status
      = DoubtStatus.escalated ∧
    (escalateDoubt (createDoubtFromGeneration "q" "sel" "ctx" "resp" 60 none)).status
      = DoubtStatus.escalated ∧
    (answerDoubt (escalateDoubt (createDoubtFromGeneration "q" "sel" "ctx" "resp" 60 none))
        "human answer" "faculty-1" 42).status = DoubtStatus.answered ∧
    (answerDoubt (escalateDoubt (createDoubtFromGeneration "q" "sel" "ctx" "resp" 60 none))
        "human answer" "faculty-1" 42).resolvedAt = some 42 ∧
    (answerDoubt (escalateDoubt (createDoubtFromGeneration "q" "sel" "ctx" "resp" 60 none))
        "human answer" "faculty-1" 42).resolvedAt ≠ none :=
  doubt_lifecycle "q" "sel" "ctx" "resp" "human answer" "faculty-1" none
    (escalateDoubt (createDoubtFromGeneration "q" "sel" "ctx" "resp" 60 none)) 42 rfl

/-- C10: the escalate endpoint unconditionally sets status escalated and the
escalated flag, from every prior status — the first two conjuncts quantify
over an arbitrary stored doubt, and the last two spell out the terminal
statuses answered and resolved; no guard exists. -/
theorem escalate_from_any_status (d : DoubtRecord) :
    (escalateDoubt d).status = DoubtStatus.escalated ∧
    (escalateDoubt d).escalated = true ∧
    (escalateDoubt { d with status := DoubtStatus.answered }).status
      = DoubtStatus.escalated ∧
    (escalateDoubt { d with status := DoubtStatus.resolved }).status
      = DoubtStatus.escalated :=
  ⟨rfl, rfl, rfl, rfl⟩

/-- C8: the grounding transcript window is the word slice from index
max(0, floor((t-30)*2.5)) up to index floor((t+30)*2.5), both bounded to the
available text, and at t = 120 these indices are 225 and 375. -/
theorem grounding_window (t : ℕ) (words : List String) :
    (transcriptWindowStart t : ℤ)
      = max 0 (Int.floor (((t : ℚ) - 30) * (5/2))) ∧
    (transcriptWindowEnd t : ℤ) = Int.floor (((t : ℚ) + 30) * (5/2)) ∧
    transcriptSegment words t
      = (words.take (transcriptWindowEnd t)).drop (transcriptWindowStart t) ∧
    (transcriptSegment words t).length ≤ words.length ∧
    transcriptWindowStart 120 = 225 ∧
    transcriptWindowEnd 120 = 375 := by
  refine ⟨?_, ?_, rfl, ?_, ?_, ?_⟩
  · simp only [transcriptWindowStart, wordsPerSec, windowSeconds]
    exact Int.toNat_of_nonneg (le_max_left 0 _)
  · simp only [transcriptWindowEnd, wordsPerSec, windowSeconds]
    refine Int.toNat_of_nonneg (Int.floor_nonneg.mpr ?_)
    positivity
  · calc (transcriptSegment words t).length
        = (words.take (transcriptWindowEnd t)).length - transcriptWindowStart t := by
          simp [transcriptSegment, jsSlice]
      _ ≤ (words.take (transcriptWindowEnd t)).length := Nat.sub_le _ _
      _ ≤ words.length := by simp [List.length_take]
  · norm_num [transcriptWindowStart, wordsPerSec, windowSeconds]
    decide
  · norm_num [transcriptWindowEnd, wordsPerSec, windowSeconds]
    decide


/-- C1 (bug evaluation): for each defined provider failure — invalid key
(HTTP 401), oversized payload (413), rate limit (429), and a missing API
key — the /ask handler answers with a bare 500 carrying the generic message
and no errorCode, because the catch-all at the end of askGroq rewraps the
specific codes before rethrowing; the final conjunct shows the route catch
block would map NO_API_KEY to the specified 401 response if the code ever
reached it, so that handler is dead code. -/
theorem provider_failures_get_bare_500 :
    askRouteCacheMiss "state the law of inertia" "" "" false none "video"
        "english" "Student" (some "user-key") none (ProviderOutcome.httpError 401)
        none none true
      = RouteOutcome.errorResp genericFailureResponse ∧
    askRouteCacheMiss "state the law of inertia" "" "" false none "video"
        "english" "Student" (some "user-key") none (ProviderOutcome.httpError 413)
        none none true
      = RouteOutcome.errorResp genericFailureResponse ∧
    askRouteCacheMiss "state the law of inertia" "" "" false none "video"
        "english" "Student" (some "user-key") none (ProviderOutcome.httpError 429)
        none none true
      = RouteOutcome.errorResp genericFailureResponse ∧
    askRouteCacheMiss "state the law of inertia" "" "" false none "video"
        "english" "Student" none none (ProviderOutcome.ok "a fine answer" fmt0)
        none none true
      = RouteOutcome.errorResp genericFailureResponse ∧
    genericFailureResponse.status = 500 ∧
    genericFailureResponse.errorCode = none ∧
    askRouteOnError "NO_API_KEY"
      = { status := 401, success := false, errorCode := some "NO_API_KEY",
          message := "Please provide your Groq API key" } := by
  refine ⟨by decide, by decide, by decide, by decide, rfl, rfl, by decide⟩

/-- C2 counterexample: a greeting request ("hi", no selection, no region) is
classified conversational and gets no video suggestion, but its canned
confidence of 100 passes both writeback gates, so a semantic-memory record
IS merged for the exchange — refuting the no-writeback part of the claim. -/
theorem conversational_writeback_occurs :
    ∃ d : AskSuccessData,
      askRouteCacheMiss "hi" "" "" false none "video" "english" "Student"
          (some "k") none ProviderOutcome.networkError (some demoVideo)
          (some [1]) true
        = RouteOutcome.okResp d ∧
      d.isConversational = true ∧
      d.doubt.suggestedVideo = none ∧
      d.isSaved = true ∧
      d.writebackPersisted = true :=
  ⟨_, rfl, rfl, rfl, rfl, rfl⟩

/-- C2 (amended): when an API key is available, every request classified as a
conversational short-circuit gets a canned response without invoking the
external model (the outcome is independent of the provider), marked
non-substantive, and no video suggestion is produced; but because the canned
confidences 100 and 90 pass the route writeback trigger (70) and the service
persistence threshold (80), a writeback to semantic memory IS attempted and,
when the embedding and the graph write succeed, a record is merged. -/
theorem conversational_shortcircuit_behavior
    (query context selectedText : String) (hasVis : Bool)
    (contentUrl : Option String) (contentType language userName : String)
    (k : String) (envKey : Option String) (p q : ProviderOutcome)
    (video : Option Video) (e : List ℚ)
    (h : isConversationalShortCircuit query selectedText hasVis = true) :
    askGroq query context hasVis contentUrl contentType language userName
        selectedText (some k) envKey p
      = askGroq query context hasVis contentUrl contentType language userName
          selectedText (some k) envKey q ∧
    (∃ r : AskResult,
      askGroq query context hasVis contentUrl contentType language userName
          selectedText (some k) envKey p = Except.ok r ∧
      r.isConversational = true ∧ r.source = "system_response" ∧
      80 ≤ r.confidence) ∧
    (∃ d : AskSuccessData,
      askRouteCacheMiss query context selectedText hasVis contentUrl
          contentType language userName (some k) envKey p video (some e) true
        = RouteOutcome.okResp d ∧
      d.isConversational = true ∧ d.doubt.suggestedVideo = none ∧
      d.isSaved = true ∧ d.writebackPersisted = true) := by
  have key : ∃ r : AskResult, r.isConversational = true ∧
      r.source = "system_response" ∧ (r.confidence = 100 ∨ r.confidence = 90) ∧
      ∀ pr : ProviderOutcome,
        askGroqInner query context hasVis contentUrl contentType language
          userName selectedText (some k) envKey pr = Except.ok r := by
    by_cases hg : (isGreeting query && decide (query.length < 20)) = true
    · refine ⟨{ explanation := greetingMessage userName (displayContextOf context),
                confidence := 100, source := "system_response",
                isConversational := true },
        rfl, rfl, Or.inl rfl, fun pr => ?_⟩
      simp [askGroqInner, activeKey, hg]
    · have hg' : (isGreeting query && decide (query.length < 20)) = false := by
        simpa using hg
      have hv : (isVagueExplain query && !(!(selectedText == "") || hasVis)) = true := by
        have h2 := h
        unfold isConversationalShortCircuit at h2
        rw [hg'] at h2
        simpa using h2
      have hvag : isVagueExplain query = true := by
        cases hb : isVagueExplain query
        · rw [hb] at hv; simp at hv
        · rfl
      have hsel : (selectedText == "") = true := by
        cases hb : (selectedText == "")
        · rw [hb] at hv; simp at hv
        · rfl
      have hvis : hasVis = false := by
        cases hb : hasVis
        · rfl
        · rw [hb] at hv; simp at hv
      refine ⟨{ explanation := selectRegionMessage userName (displayContextOf context),
                confidence := 90, source := "system_response",
                isConversational := true },
        rfl, rfl, Or.inr rfl, fun pr => ?_⟩
      simp [askGroqInner, activeKey, hg', hvag, hsel, hvis]
  obtain ⟨r, hconv, hsrc, hconf, hall⟩ := key
  have hask : ∀ pr : ProviderOutcome,
      askGroq query context hasVis contentUrl contentType language userName
        selectedText (some k) envKey pr = Except.ok r := by
    intro pr
    simp [askGroq, hall pr]
  have h70 : (70:ℤ) ≤ r.confidence := by rcases hconf with h1 | h1 <;> omega
  have h80 : ¬ r.confidence < 80 := by rcases hconf with h1 | h1 <;> omega
  refine ⟨(hask p).trans (hask q).symm, ⟨r, hask p, hconv, hsrc, by omega⟩, ?_⟩
  have hroute : askRouteCacheMiss query context selectedText hasVis contentUrl
      contentType language userName (some k) envKey p video (some e) true
      = RouteOutcome.okResp
        { doubt := createDoubtFromGeneration query selectedText context
            r.explanation r.confidence none,
          isFromCache := false, isSaved := true,
          isConversational := r.isConversational, source := "AI_API",
          confidence := r.confidence, writebackPersisted := true } := by
    simp [askRouteCacheMiss, hask p, hconv, askWriteback, saveToKnowledgeGraph,
      h70, h80]
  exact ⟨_, hroute, hconv, rfl, rfl, rfl⟩

/-- C2 witness: the amended behavior at the concrete greeting "hi" with an
API key: the canned answer is returned independently of the provider
outcome, marked conversational with confidence at least 80. -/
theorem conversational_shortcircuit_behavior_witness :
    isConversationalShortCircuit "hi" "" false = true ∧
    askGroq "hi" "" false none "video" "english" "Student" "" (some "k") none
        ProviderOutcome.networkError
      = askGroq "hi" "" false none "video" "english" "Student" "" (some "k")
          none (ProviderOutcome.ok "unused model output" fmt0) ∧
    (∃ r : AskResult,
      askGroq "hi" "" false none "video" "english" "Student" "" (some "k")
          none ProviderOutcome.networkError = Except.ok r ∧
      r.isConversational = true ∧ r.source = "system_response" ∧
      80 ≤ r.confidence) := by
  have h : isConversationalShortCircuit "hi" "" false = true := by decide
  have main := conversational_shortcircuit_behavior "hi" "" "" false none
    "video" "english" "Student" "k" none ProviderOutcome.networkError
    (ProviderOutcome.ok "unused model output" fmt0) none [1] h
  exact ⟨h, main.1, main.2.1⟩
